import Mathlib

/-!
Verification of the dataset-splitting and validation pipeline of
`shipping-doc-analyst` against its specification.

The development shallowly embeds the relevant Python sources:

* `scripts/validate_annotations.py` — `validate_annotation`, `get_annotation_stats`;
* `scripts/split_data.py` — `get_document_type` and the stratified-split logic of `main`;
* `scripts/data_quality_report.py` — the balanced-splits quality check of `main`.

Modelling conventions:

* JSON values are the inductive `Json` below (mutual with `JsonList`/`JsonObj` so
  that decidable equality can be derived); a file that cannot be parsed is `none`
  in an `Option Json`.
* Python `float` ratios are modelled as exact fractions `Ratio` (an integer
  numerator over a natural denominator); `int(x)` on a product `n * ratio` is
  truncation toward zero, i.e. `Int.tdiv` of exact integers.  IEEE-754 rounding
  of the Python products is not modelled.
* Python list slices (which accept negative bounds) are embedded by `pySliceTo`,
  `pySlice`, `pySliceFrom` with Python's index-normalisation rule.
* `random.seed` / `random.shuffle` are library calls, not repository code; they
  are modelled by `pyShuffle`: a deterministic Fisher–Yates-style permutation
  driven by a generator state that is seeded once and threaded through all
  per-type groups in grouping order, exactly as the single global generator of
  the script.  The concrete generator is a stand-in for the Mersenne Twister:
  every theorem below depends only on it being a deterministic function of the
  state that permutes its input, never on the particular permutation produced.
-/

/-! ## JSON values -/

mutual

inductive Json where
  | null
  | bool (b : Bool)
  | num (n : Int)
  | str (s : String)
  | arr (elems : JsonList)
  | obj (fields : JsonObj)
deriving DecidableEq, Repr

inductive JsonList where
  | nil
  | cons (hd : Json) (tl : JsonList)
deriving DecidableEq, Repr

inductive JsonObj where
  | nil
  | cons (key : String) (val : Json) (tl : JsonObj)
deriving DecidableEq, Repr

end

/-- Number of elements of a JSON array (Python `len` on a list). -/
def JsonList.length : JsonList → Nat
  | .nil => 0
  | .cons _ t => t.length + 1

/-- Number of keys of a JSON object (Python `len` on a dict; keys are unique
in a parsed JSON object, matching this count). -/
def JsonObj.length : JsonObj → Nat
  | .nil => 0
  | .cons _ _ t => t.length + 1

/-- First value stored under `key`, if any (Python `d.get(key)` / `d[key]`). -/
def JsonObj.find : JsonObj → String → Option Json
  | .nil, _ => none
  | .cons k v t, key => if k = key then some v else JsonObj.find t key

/-- Python `key in d`. -/
def JsonObj.hasKey (o : JsonObj) (k : String) : Bool := (o.find k).isSome

/-- Python `d.get(key, default)`. -/
def JsonObj.getD (o : JsonObj) (k : String) (d : Json) : Json := (o.find k).getD d

/-- Python `len(v)` for a JSON value: defined for strings, arrays and objects,
raises `TypeError` (modelled as `none`) otherwise. -/
def jsonLen : Json → Option Nat
  | .str s => some s.length
  | .arr xs => some xs.length
  | .obj o => some o.length
  | _ => none

/-! ## `validate_annotations.py`: the structural validator -/

/-- Issue text of `f"Missing required field: '{field}'"` (quote characters of the
original message texts are omitted throughout; only the identity and order of the
issues matter below). -/
def missingFieldIssue (f : String) : String := "Missing required field: " ++ f

/-- Issue text of the invalid `document_type` branch. -/
def invalidDocTypeIssue : String := "Invalid document_type"

/-- Issue text of the top-level vs `entities` `document_type` mismatch branch. -/
def mismatchIssue : String := "Mismatched document_type"

/-- `"Invoice missing 'invoice_number'"`. -/
def invoiceMissingIssue : String := "Invoice missing invoice_number"

/-- `"Purchase order missing 'po_number'"`. -/
def poMissingIssue : String := "Purchase order missing po_number"

/-- `"Shipping order missing 'order_number'"`. -/
def shippingMissingIssue : String := "Shipping order missing order_number"

/-- `"'entities' has no actual data (only document_type)"`. -/
def emptyEntitiesIssue : String := "entities has no actual data (only document_type)"

/-- `"'entities' must be a dictionary"`. -/
def entitiesNotDictIssue : String := "entities must be a dictionary"

/-- `"'annotation_metadata' must be a dictionary"`. -/
def metadataNotDictIssue : String := "annotation_metadata must be a dictionary"

/-- `required_top_level` of `validate_annotation`. -/
def requiredTopLevel : List String := ["document_id", "filename", "document_type", "entities"]

/-- `valid_types` of `validate_annotation`. -/
def validTypes : List String := ["invoice", "purchase_order", "shipping_order"]

/-- `validate_annotation` (lines 16–78 of `validate_annotations.py`) applied to a
successfully parsed top-level JSON object `data`.  Returns
`(len(issues) == 0, issues)` with the issues collected in source order:
missing required fields, invalid `document_type`, the `entities` block
(dict check, `document_type` mismatch, type-specific identifier, empty
annotation), and finally the `annotation_metadata` dict check. -/
def validateAnnotation (data : JsonObj) : Bool × List String :=
  let issues :=
    (requiredTopLevel.filterMap fun f =>
      if data.hasKey f then none else some (missingFieldIssue f)) ++
    (match data.find "document_type" with
     | none => []
     | some (Json.str s) => if validTypes.contains s then [] else [invalidDocTypeIssue]
     | some _ => [invalidDocTypeIssue]) ++
    (match data.find "entities" with
     | none => []
     | some (Json.obj e) =>
         (if e.hasKey "document_type" ∧ data.hasKey "document_type" ∧
             e.find "document_type" ≠ data.find "document_type"
          then [mismatchIssue] else []) ++
         (match data.find "document_type" with
          | some (Json.str "invoice") =>
              if e.hasKey "invoice_number" then [] else [invoiceMissingIssue]
          | some (Json.str "purchase_order") =>
              if e.hasKey "po_number" then [] else [poMissingIssue]
          | some (Json.str "shipping_order") =>
              if e.hasKey "order_number" then [] else [shippingMissingIssue]
          | _ => []) ++
         (if e.length ≤ 1 then [emptyEntitiesIssue] else [])
     | some _ => [entitiesNotDictIssue]) ++
    (match data.find "annotation_metadata" with
     | none => []
     | some (Json.obj _) => []
     | some _ => [metadataNotDictIssue])
  (issues.isEmpty, issues)

/-- The statistics record built by `get_annotation_stats`
(lines 80–108 of `validate_annotations.py`). -/
structure AnnotationStats where
  document_type : Json
  field_count : Nat
  items_count : Nat
  has_seller_buyer : Bool
  has_amounts : Bool
deriving DecidableEq, Repr

/-- The `items_count` computation of `get_annotation_stats`:
`len(entities.get("line_items", []))` when `"line_items" in entities`, else the
same for `"cargo_items"`, else `0`.  `none` models `len` raising `TypeError`
(when the stored value is not a sized one), which the enclosing bare `except`
turns into the empty result. -/
def itemsCountPy (e : JsonObj) : Option Nat :=
  if e.hasKey "line_items" then jsonLen (e.getD "line_items" (Json.arr .nil))
  else if e.hasKey "cargo_items" then jsonLen (e.getD "cargo_items" (Json.arr .nil))
  else some 0

/-- `get_annotation_stats`: `none` (the Python empty dict `{}` of the bare
`except` branch) for an unreadable/unparsable file, for a non-object top level
(`data.get` raises `AttributeError`), for a present but non-object `entities`
value (membership/len on it fails or is meaningless string searching — the
claims below never touch that corner), and when `len` fails on the stored
items value; otherwise the statistics record.  Note the source checks only
`seller`/`buyer`/`shipper`/`consignee` for `has_seller_buyer` and only
`total`/`subtotal`/`total_weight` for `has_amounts`. -/
def get_annotation_stats (file : Option Json) : Option AnnotationStats :=
  match file with
  | some (Json.obj data) =>
    match data.find "entities" with
    | some (Json.obj e) =>
      match itemsCountPy e with
      | none => none
      | some ic =>
        some { document_type := data.getD "document_type" (Json.str "unknown")
               field_count := e.length
               items_count := ic
               has_seller_buyer := e.hasKey "seller" || e.hasKey "buyer" ||
                                   e.hasKey "shipper" || e.hasKey "consignee"
               has_amounts := e.hasKey "total" || e.hasKey "subtotal" ||
                              e.hasKey "total_weight" }
    | none =>
        some { document_type := data.getD "document_type" (Json.str "unknown")
               field_count := 0
               items_count := 0
               has_seller_buyer := false
               has_amounts := false }
    | some _ => none
  | _ => none

/-- Stated from the spec wording (for comparison with the source): presence of
any company-role field among seller/buyer/shipper/consignee/supplier. -/
def specCompanyRole (e : JsonObj) : Bool :=
  e.hasKey "seller" || e.hasKey "buyer" || e.hasKey "shipper" ||
  e.hasKey "consignee" || e.hasKey "supplier"

/-- Stated from the spec wording (for comparison with the source): presence of
any amount field among total/subtotal/tax/total_weight. -/
def specAmountField (e : JsonObj) : Bool :=
  e.hasKey "total" || e.hasKey "subtotal" || e.hasKey "tax" || e.hasKey "total_weight"

/-! ## `split_data.py`: the stratified splitter -/

/-- One discovered annotation file: its filename stem (the `document_id`) and
its parsed JSON content (`none` when the file cannot be read or parsed). -/
structure DataRec where
  document_id : String
  content : Option Json
deriving DecidableEq, Repr

/-- `get_document_type` (lines 17–24 of `split_data.py`):
`data.get("document_type", "unknown")` for a parsed object; the bare `except`
returns `"unknown"` for an unreadable/unparsable file and for a non-object top
level (where `.get` raises `AttributeError`). -/
def get_document_type (content : Option Json) : Json :=
  match content with
  | some (Json.obj data) => data.getD "document_type" (Json.str "unknown")
  | _ => Json.str "unknown"

/-- A ratio given on the command line, modelled as the exact fraction
`num / den` (Python parses e.g. `0.7` into a float; the embedding keeps the
exact rational value and does not model IEEE-754 rounding). -/
structure Ratio where
  num : Int
  den : Nat
deriving DecidableEq, Repr

/-- The rational value of a `Ratio`. -/
def Ratio.toRat (r : Ratio) : ℚ := (r.num : ℚ) / (r.den : ℚ)

/-- `int(n * r)` of lines 119–120, embedded as truncation toward zero of the
exact product `n * r.num / r.den` (for a positive denominator, `Int.tdiv` of
the integer product by the denominator).  The source truncates a rounded
IEEE-754 product instead, which can differ from the exact truncation:
`int(100*0.29)` is 28 in Python, while the exact product `100 * 0.29` floors
to 29 (the double nearest 0.29 lies slightly below it).  A theorem whose truth
would turn on this rounding states the exact-arithmetic identification
explicitly and separately from what it proves about the program's slicing. -/
def pyIntMul (n : Nat) (r : Ratio) : Int := Int.tdiv ((n : Int) * r.num) (r.den : Int)

/-- Python slice-bound normalisation: a negative bound counts from the end
(clamped at 0), a non-negative one is clamped at the length. -/
def pyNorm (len : Nat) (i : Int) : Nat :=
  if i < 0 then ((len : Int) + i).toNat else min i.toNat len

/-- Python `xs[:i]`. -/
def pySliceTo (xs : List α) (i : Int) : List α := xs.take (pyNorm xs.length i)

/-- Python `xs[i:]`. -/
def pySliceFrom (xs : List α) (i : Int) : List α := xs.drop (pyNorm xs.length i)

/-- Python `xs[a:b]`: the elements with index `k`, `pyNorm a ≤ k < pyNorm b`. -/
def pySlice (xs : List α) (a b : Int) : List α :=
  (xs.take (pyNorm xs.length b)).drop (pyNorm xs.length a)

/-- Modelled from the spec: the pseudo-random generator behind `random.seed` /
`random.shuffle` (Python standard library, not part of `src/`).  The state
update is a linear congruential step; what the proofs use is only that it is a
deterministic function of the state. -/
def lcgNext (s : Nat) : Nat := (s * 1103515245 + 12345) % 2147483648

/-- Remove the element at position `i` (clamped to the last position) from the
non-empty list `x :: xs`, returning it and the remainder. -/
def pickGo : Nat → α → List α → α × List α
  | 0, x, xs => (x, xs)
  | _ + 1, x, [] => (x, [])
  | i + 1, x, y :: ys =>
    let p := pickGo i y ys
    (p.1, x :: p.2)

/-- Fuelled Fisher–Yates-style shuffle: draw a generator value, extract the
element it selects, recurse on the remainder.  The fuel is instantiated with
the list length, making the recursion structural (and kernel-reducible). -/
def shuffleGo : Nat → Nat → List α → List α × Nat
  | 0, st, xs => (xs, st)
  | _ + 1, st, [] => ([], st)
  | f + 1, st, x :: xs =>
    let st' := lcgNext st
    let p := pickGo (st' % (xs.length + 1)) x xs
    let q := shuffleGo f st' p.2
    (p.1 :: q.1, q.2)

/-- Modelled from the spec: `random.shuffle(files)` — a deterministic
permutation of `files` driven by (and advancing) the shared generator state. -/
def pyShuffle (st : Nat) (xs : List α) : List α × Nat := shuffleGo xs.length st xs

/-- Append record `r` to the group keyed by `k` (insertion-ordered, like a
Python dict: a new key goes to the end, an existing key keeps its position and
its list grows at the end). -/
def insertGroup (gs : List (Json × List DataRec)) (k : Json) (r : DataRec) :
    List (Json × List DataRec) :=
  match gs with
  | [] => [(k, [r])]
  | (k', rs) :: t => if k' = k then (k', rs ++ [r]) :: t else (k', rs) :: insertGroup t k r

/-- The `by_type` grouping loop (lines 81–86 of `split_data.py`): records in
discovery order, grouped by `get_document_type`, keys in first-occurrence
order. -/
def groupByType (files : List DataRec) : List (Json × List DataRec) :=
  files.foldl (fun gs f => insertGroup gs (get_document_type f.content) f) []

/-- The per-group assignment (lines 118–125 of `split_data.py`):
`n_train = int(n * train_ratio)`, `n_val = int(n * val_ratio)`,
`files[:n_train]`, `files[n_train:n_train+n_val]`, `files[n_train+n_val:]`.
No `n_test` is computed; the test slice takes everything after the first two. -/
def splitGroup (r_train r_val : Ratio) (files : List DataRec) :
    List DataRec × List DataRec × List DataRec :=
  let n := files.length
  let n_train := pyIntMul n r_train
  let n_val := pyIntMul n r_val
  (pySliceTo files n_train,
   pySlice files n_train (n_train + n_val),
   pySliceFrom files (n_train + n_val))

/-- The splitting loop (lines 114–129): for each group in grouping order,
shuffle with the shared generator (threading its state across groups), apply
`splitGroup`, and append the three slices to the accumulated train/val/test
lists. -/
def splitGroups (r_train r_val : Ratio) (st : Nat) :
    List (Json × List DataRec) → (List DataRec × List DataRec × List DataRec) × Nat
  | [] => (([], [], []), st)
  | (_, files) :: gs =>
    let s := pyShuffle st files
    let parts := splitGroup r_train r_val s.1
    let rest := splitGroups r_train r_val s.2 gs
    ((parts.1 ++ rest.1.1, parts.2.1 ++ rest.1.2.1, parts.2.2 ++ rest.1.2.2), rest.2)

/-- The whole stratified split: group by document type, then run the splitting
loop with the generator seeded once (`random.seed(seed)`, line 56). -/
def splitAll (seed : Nat) (r_train r_val : Ratio) (files : List DataRec) :
    List DataRec × List DataRec × List DataRec :=
  (splitGroups r_train r_val seed (groupByType files)).1

/-- The ratio validation of lines 66–69: `abs(total_ratio - 1.0) > 0.01`,
evaluated exactly over the common denominator (`S/D` is the ratio sum, so the
test is `100 * |S - D| > D`).  The source evaluates the same predicate in
IEEE-754 doubles, which can decide boundary sums differently (e.g. the float
sum of 1.0 + 0.1 - 0.09 exceeds 1.01 by about 9e-18, so the real check fires
while the exact one passes).  Away from the 0.01 boundary the two agree; every
concrete triple used in a theorem below either has exact float arithmetic
(dyadic components) or sits far from the boundary. -/
def ratioSumBad (a b c : Ratio) : Bool :=
  let D : Int := ((a.den * b.den * c.den : Nat) : Int)
  let S : Int := a.num * (b.den : Int) * (c.den : Int) +
                 b.num * (a.den : Int) * (c.den : Int) +
                 c.num * (a.den : Int) * (b.den : Int)
  100 * |S - D| > D

/-- How a run of `split_data.py main` terminates. -/
inductive RunOutcome where
  /-- The ratio check failed: the error is printed, then `sys.exit(1)` on
  line 69 raises `NameError` because `sys` is never imported in
  `split_data.py`; the interpreter terminates on the unhandled exception. -/
  | configErrorCrash
  /-- `json_files` is empty: a warning is printed and `main` returns normally
  (lines 74–76), so the process exits 0. -/
  | emptyInputReturn
  /-- The split was computed and materialised. -/
  | completed (train val test : List DataRec)
deriving DecidableEq, Repr

/-- Control flow of `main` (lines 52–129) up to the computation of the three
membership lists: ratio check, empty-input check, then the stratified split. -/
def split_data_main (r_train r_val r_test : Ratio) (seed : Nat)
    (files : List DataRec) : RunOutcome :=
  if ratioSumBad r_train r_val r_test then .configErrorCrash
  else if files.isEmpty then .emptyInputReturn
  else
    let out := splitAll seed r_train r_val files
    .completed out.1 out.2.1 out.2.2

/-- Process exit status for each outcome: CPython exits with status 1 on an
unhandled exception (the `NameError` of the config branch), and 0 on a normal
return from the command. -/
def processExitCode : RunOutcome → Nat
  | .configErrorCrash => 1
  | .emptyInputReturn => 0
  | .completed _ _ _ => 0

/-- The modules imported by `split_data.py` (lines 4–13).  `sys` is absent. -/
def splitDataImports : List String :=
  ["json", "shutil", "pathlib.Path", "typing", "random",
   "rich.console.Console", "rich.table.Table", "rich.panel.Panel", "click"]

/-! ## `data_quality_report.py`: the balanced-splits quality check -/

/-- The balance check of lines 189–198: with `doc_counts` the per-split record
counts, the splits are imbalanced iff `max_count > 0` and
`min_count / max_count < 0.5`.  The float comparison is embedded exactly as
`2 * min_count < max_count` (for integer counts and a positive maximum,
`min/max < 1/2` iff `2*min < max`; float division of realistic counts is
correctly rounded and decides this threshold identically). -/
def splitsBalanced (counts : List Nat) : Bool :=
  match counts with
  | [] => true
  | c :: cs =>
    let mx := cs.foldl Nat.max c
    let mn := cs.foldl Nat.min c
    if 0 < mx ∧ 2 * mn < mx then false else true

/-- All records of all groups, in group order. -/
def groupsJoin (gs : List (Json × List DataRec)) : List DataRec := (gs.map Prod.snd).flatten

/-- Invariant of the `by_type` mapping: each stored record has the group's key
as its document type. -/
def GroupsTyped (gs : List (Json × List DataRec)) : Prop :=
  ∀ g ∈ gs, ∀ x ∈ g.2, get_document_type x.content = g.1

/-! ## Concrete inputs used in the instance theorems below -/

/-- Parsed content of a minimal invoice annotation file. -/
def invoiceContent : Option Json :=
  some (Json.obj (.cons "document_type" (Json.str "invoice") .nil))

/-- A sample record with a numeric identifier. -/
def sampleRec (i : Nat) : DataRec := { document_id := toString i, content := invoiceContent }

/-- `n` distinct sample records, all of document type `invoice`. -/
def sampleFiles (n : Nat) : List DataRec := (List.range n).map sampleRec

/-- A record whose annotation file cannot be parsed. -/
def unreadableRec : DataRec := { document_id := "bad", content := none }

/-- The `entities` value of the spec record
`{"document_id":"x","filename":"x.pdf","document_type":"invoice","entities":{"document_type":"invoice"}}`. -/
def specEntitiesOnlyType : JsonObj := .cons "document_type" (Json.str "invoice") .nil

/-- The spec record whose `entities` carries only the type discriminator. -/
def specEmptyInvoiceRec : JsonObj :=
  .cons "document_id" (Json.str "x")
    (.cons "filename" (Json.str "x.pdf")
      (.cons "document_type" (Json.str "invoice")
        (.cons "entities" (Json.obj specEntitiesOnlyType) .nil)))

/-- An `entities` value containing a `supplier` company field and a `tax` amount
field (and nothing else besides the type tag). -/
def supplierTaxEntities : JsonObj :=
  .cons "document_type" (Json.str "invoice")
    (.cons "supplier" (Json.str "ACME") (.cons "tax" (Json.num 5) .nil))

/-- A record whose only company-role field is `supplier` and whose only amount
field is `tax`. -/
def supplierTaxRec : JsonObj :=
  .cons "document_id" (Json.str "d")
    (.cons "document_type" (Json.str "invoice")
      (.cons "entities" (Json.obj supplierTaxEntities) .nil))

/-- An `entities` value with both a two-element `line_items` sequence and a
three-element `cargo_items` sequence. -/
def bothItemsEntities : JsonObj :=
  .cons "document_type" (Json.str "shipping_order")
    (.cons "line_items" (Json.arr (.cons (Json.num 1) (.cons (Json.num 2) .nil)))
      (.cons "cargo_items"
        (Json.arr (.cons (Json.num 3) (.cons (Json.num 4) (.cons (Json.num 5) .nil)))) .nil))

/-- A record carrying `bothItemsEntities`. -/
def bothItemsRec : JsonObj :=
  .cons "document_id" (Json.str "b")
    (.cons "document_type" (Json.str "shipping_order")
      (.cons "entities" (Json.obj bothItemsEntities) .nil))

/-- An `entities` value with a `seller` field only. -/
def sellerEntities : JsonObj :=
  .cons "document_type" (Json.str "invoice") (.cons "seller" (Json.str "A") .nil)

/-- A record carrying `sellerEntities`. -/
def sellerRec : JsonObj :=
  .cons "document_id" (Json.str "w")
    (.cons "document_type" (Json.str "invoice")
      (.cons "entities" (Json.obj sellerEntities) .nil))

/-! ## Permutation and slicing lemmas -/

theorem pickGo_perm (i : Nat) (x : α) (xs : List α) :
    List.Perm ((pickGo i x xs).1 :: (pickGo i x xs).2) (x :: xs) := by
  induction xs generalizing i x with
  | nil => cases i <;> simp [pickGo]
  | cons y ys ih =>
    cases i with
    | zero => simp [pickGo]
    | succ j =>
      simp only [pickGo]
      exact (List.Perm.swap x (pickGo j y ys).1 (pickGo j y ys).2).trans ((ih j y).cons x)

theorem shuffleGo_perm (f st : Nat) (xs : List α) : List.Perm (shuffleGo f st xs).1 xs := by
  induction f generalizing st xs with
  | zero => simp [shuffleGo]
  | succ g ih =>
    cases xs with
    | nil => simp [shuffleGo]
    | cons x xs =>
      simp only [shuffleGo]
      exact ((ih _ _).cons _).trans (pickGo_perm _ x xs)

theorem pyShuffle_perm (st : Nat) (xs : List α) : List.Perm (pyShuffle st xs).1 xs :=
  shuffleGo_perm xs.length st xs

theorem pyShuffle_length (st : Nat) (xs : List α) : (pyShuffle st xs).1.length = xs.length :=
  (pyShuffle_perm st xs).length_eq

theorem pyNorm_of_nonneg (len : Nat) (i : Int) (h : 0 ≤ i) :
    pyNorm len i = min i.toNat len := by
  simp [pyNorm, not_lt.mpr h]

theorem take_min_length (xs : List α) (k : Nat) : xs.take (min k xs.length) = xs.take k := by
  rcases le_total k xs.length with h | h
  · rw [min_eq_left h]
  · rw [min_eq_right h, List.take_length, List.take_of_length_le h]

theorem drop_min_of_le (ys : List α) (k len : Nat) (h : ys.length ≤ len) :
    ys.drop (min k len) = ys.drop k := by
  rcases le_total k len with h' | h'
  · rw [min_eq_left h']
  · rw [min_eq_right h', List.drop_eq_nil_of_le h, List.drop_eq_nil_of_le (h.trans h')]

theorem pySliceTo_nonneg (xs : List α) (i : Int) (h : 0 ≤ i) :
    pySliceTo xs i = xs.take i.toNat := by
  rw [pySliceTo, pyNorm_of_nonneg _ _ h, take_min_length]

theorem pySliceFrom_nonneg (xs : List α) (i : Int) (h : 0 ≤ i) :
    pySliceFrom xs i = xs.drop i.toNat := by
  rw [pySliceFrom, pyNorm_of_nonneg _ _ h,
    drop_min_of_le xs i.toNat xs.length le_rfl]

theorem pySlice_nonneg (xs : List α) (a b : Int) (ha : 0 ≤ a) (hb : 0 ≤ b) :
    pySlice xs a b = (xs.drop a.toNat).take (b.toNat - a.toNat) := by
  rw [pySlice, pyNorm_of_nonneg _ _ ha, pyNorm_of_nonneg _ _ hb, take_min_length,
    drop_min_of_le (xs.take b.toNat) a.toNat xs.length
      (by rw [List.length_take]; exact min_le_right _ _)]
  exact List.drop_take b.toNat a.toNat xs

theorem take_drop_partition (s : List α) (a b : Nat) :
    s.take a ++ ((s.drop a).take b ++ s.drop (a + b)) = s := by
  calc s.take a ++ ((s.drop a).take b ++ s.drop (a + b))
      = (s.take a ++ (s.drop a).take b) ++ s.drop (a + b) := by rw [List.append_assoc]
    _ = s.take (a + b) ++ s.drop (a + b) := by rw [← List.take_add]
    _ = s := List.take_append_drop _ _

theorem pyIntMul_nonneg (n : Nat) (r : Ratio) (h : 0 ≤ r.num) : 0 ≤ pyIntMul n r :=
  Int.tdiv_nonneg (mul_nonneg (Int.natCast_nonneg n) h) (Int.natCast_nonneg r.den)

theorem splitGroup_partition (r1 r2 : Ratio) (s : List DataRec)
    (h1 : 0 ≤ r1.num) (h2 : 0 ≤ r2.num) :
    (splitGroup r1 r2 s).1 ++ ((splitGroup r1 r2 s).2.1 ++ (splitGroup r1 r2 s).2.2) = s := by
  have ht : 0 ≤ pyIntMul s.length r1 := pyIntMul_nonneg _ _ h1
  have hv : 0 ≤ pyIntMul s.length r2 := pyIntMul_nonneg _ _ h2
  simp only [splitGroup]
  rw [pySliceTo_nonneg _ _ ht, pySlice_nonneg _ _ _ ht (add_nonneg ht hv),
    pySliceFrom_nonneg _ _ (add_nonneg ht hv), Int.toNat_add ht hv,
    Nat.add_sub_cancel_left]
  exact take_drop_partition s _ _

/-! ## Grouping lemmas -/

theorem groupsJoin_insertGroup (gs : List (Json × List DataRec)) (k : Json) (r : DataRec) :
    List.Perm (groupsJoin (insertGroup gs k r)) (r :: groupsJoin gs) := by
  induction gs with
  | nil => simp [insertGroup, groupsJoin]
  | cons g t ih =>
    obtain ⟨k', rs⟩ := g
    by_cases h : k' = k
    · simp only [insertGroup, if_pos h, groupsJoin, List.map_cons, List.flatten_cons,
        List.append_assoc]
      exact (List.Perm.append_left rs (by simp)).trans List.perm_middle
    · simp only [insertGroup, if_neg h, groupsJoin, List.map_cons, List.flatten_cons]
      exact (List.Perm.append_left rs ih).trans List.perm_middle

theorem groupsJoin_foldl (files : List DataRec) :
    ∀ gs, List.Perm
      (groupsJoin (files.foldl (fun gs f => insertGroup gs (get_document_type f.content) f) gs))
      (files ++ groupsJoin gs) := by
  induction files with
  | nil => intro gs; simp
  | cons f fs ih =>
    intro gs
    simp only [List.foldl_cons, List.cons_append]
    exact ((ih _).trans (List.Perm.append_left fs (groupsJoin_insertGroup gs _ f))).trans
      List.perm_middle

theorem groupByType_perm (files : List DataRec) :
    List.Perm (groupsJoin (groupByType files)) files := by
  simpa [groupsJoin, groupByType] using groupsJoin_foldl files []

theorem splitGroups_perm (r1 r2 : Ratio) (h1 : 0 ≤ r1.num) (h2 : 0 ≤ r2.num) :
    ∀ (gs : List (Json × List DataRec)) (st : Nat),
      List.Perm
        ((splitGroups r1 r2 st gs).1.1 ++
          ((splitGroups r1 r2 st gs).1.2.1 ++ (splitGroups r1 r2 st gs).1.2.2))
        (groupsJoin gs) := by
  intro gs
  induction gs with
  | nil => intro st; simp [splitGroups, groupsJoin]
  | cons g t ih =>
    intro st
    obtain ⟨k, files⟩ := g
    apply List.perm_iff_count.mpr
    intro x
    have hpart := congrArg (List.count x)
      (splitGroup_partition r1 r2 (pyShuffle st files).1 h1 h2)
    have hshuf := (pyShuffle_perm st files).count_eq x
    have hrec := (ih (pyShuffle st files).2).count_eq x
    simp only [splitGroups, groupsJoin, List.map_cons, List.flatten_cons,
      List.count_append] at hpart hshuf hrec ⊢
    omega

theorem splitAll_perm (seed : Nat) (r1 r2 : Ratio) (files : List DataRec)
    (h1 : 0 ≤ r1.num) (h2 : 0 ≤ r2.num) :
    List.Perm
      ((splitAll seed r1 r2 files).1 ++
        ((splitAll seed r1 r2 files).2.1 ++ (splitAll seed r1 r2 files).2.2))
      files :=
  (splitGroups_perm r1 r2 h1 h2 (groupByType files) seed).trans (groupByType_perm files)

/-! ## Arithmetic bridges between the integer embedding and exact rationals -/

theorem pyIntMul_eq_floor (n : Nat) (r : Ratio) (h : 0 ≤ r.num) :
    pyIntMul n r = ⌊(n : ℚ) * r.toRat⌋ := by
  rw [pyIntMul,
    Int.tdiv_eq_ediv (mul_nonneg (Int.natCast_nonneg n) h) (Int.natCast_nonneg r.den),
    Ratio.toRat, ← mul_div_assoc, ← Rat.floor_intCast_div_natCast ((n : Int) * r.num) r.den]
  congr 1
  push_cast
  ring

theorem ratio_add_le_one (r1 r2 : Ratio) (hd1 : 0 < r1.den) (hd2 : 0 < r2.den)
    (h : r1.num * (r2.den : Int) + r2.num * (r1.den : Int) ≤ (r1.den : Int) * (r2.den : Int)) :
    r1.toRat + r2.toRat ≤ 1 := by
  have hd1q : ((r1.den : ℚ)) ≠ 0 := by
    exact_mod_cast Nat.pos_iff_ne_zero.mp hd1
  have hd2q : ((r2.den : ℚ)) ≠ 0 := by
    exact_mod_cast Nat.pos_iff_ne_zero.mp hd2
  rw [Ratio.toRat, Ratio.toRat, div_add_div _ _ hd1q hd2q, div_le_one (by positivity)]
  have hq : ((r1.num * (r2.den : Int) + r2.num * (r1.den : Int) : Int) : ℚ) ≤
      (((r1.den : Int) * (r2.den : Int) : Int) : ℚ) := by exact_mod_cast h
  push_cast at hq ⊢
  linarith

theorem floor_add_floor_le (n : Nat) (q1 q2 : ℚ) (hsum : q1 + q2 ≤ 1) :
    ⌊(n : ℚ) * q1⌋ + ⌊(n : ℚ) * q2⌋ ≤ (n : Int) := by
  have hmul : (n : ℚ) * q1 + (n : ℚ) * q2 ≤ (n : ℚ) := by
    have := mul_le_mul_of_nonneg_left hsum (by positivity : (0 : ℚ) ≤ (n : ℚ))
    linarith
  have hq : ((⌊(n : ℚ) * q1⌋ + ⌊(n : ℚ) * q2⌋ : Int) : ℚ) ≤ ((n : Int) : ℚ) := by
    push_cast
    linarith [Int.floor_le ((n : ℚ) * q1), Int.floor_le ((n : ℚ) * q2)]
  exact_mod_cast hq

/-! ## Per-group slice lengths -/

theorem splitGroup_lengths (r1 r2 : Ratio) (s : List DataRec)
    (h1 : 0 ≤ r1.num) (h2 : 0 ≤ r2.num)
    (hb : pyIntMul s.length r1 + pyIntMul s.length r2 ≤ (s.length : Int)) :
    (splitGroup r1 r2 s).1.length = (pyIntMul s.length r1).toNat ∧
    (splitGroup r1 r2 s).2.1.length = (pyIntMul s.length r2).toNat ∧
    (splitGroup r1 r2 s).2.2.length =
      s.length - (pyIntMul s.length r1).toNat - (pyIntMul s.length r2).toNat := by
  have ht : 0 ≤ pyIntMul s.length r1 := pyIntMul_nonneg _ _ h1
  have hv : 0 ≤ pyIntMul s.length r2 := pyIntMul_nonneg _ _ h2
  have hsum : (pyIntMul s.length r1).toNat + (pyIntMul s.length r2).toNat ≤ s.length := by
    have := Int.toNat_le.mpr hb
    rwa [Int.toNat_add ht hv] at this
  simp only [splitGroup]
  rw [pySliceTo_nonneg _ _ ht, pySlice_nonneg _ _ _ ht (add_nonneg ht hv),
    pySliceFrom_nonneg _ _ (add_nonneg ht hv), Int.toNat_add ht hv,
    Nat.add_sub_cancel_left, List.length_take, List.length_take, List.length_drop,
    List.length_drop]
  refine ⟨min_eq_left (by omega), min_eq_left (by omega), by omega⟩

/-! ## Grouping a single-type record set -/

theorem groupByType_single_aux (k : Json) :
    ∀ (fs : List DataRec) (acc : List DataRec),
      (∀ x ∈ fs, get_document_type x.content = k) →
      (fs.foldl (fun gs f => insertGroup gs (get_document_type f.content) f) [(k, acc)]) =
        [(k, acc ++ fs)] := by
  intro fs
  induction fs with
  | nil => intro acc _; simp
  | cons f t ih =>
    intro acc hall
    simp only [List.foldl_cons]
    rw [hall f (by simp), show insertGroup [(k, acc)] k f = [(k, acc ++ [f])] by
      simp [insertGroup]]
    rw [ih (acc ++ [f]) (fun x hx => hall x (by simp [hx]))]
    simp

theorem groupByType_single (k : Json) (f : DataRec) (fs : List DataRec)
    (hall : ∀ x ∈ f :: fs, get_document_type x.content = k) :
    groupByType (f :: fs) = [(k, f :: fs)] := by
  simp only [groupByType, List.foldl_cons]
  rw [hall f (by simp), show insertGroup [] k f = [(k, [f])] from rfl,
    groupByType_single_aux k fs [f] (fun x hx => hall x (by simp [hx]))]
  simp

/-! ## Every group holds exactly the records of its own document type -/

theorem insertGroup_typed {gs : List (Json × List DataRec)} {k : Json} {r : DataRec}
    (hgs : GroupsTyped gs) (hr : get_document_type r.content = k) :
    GroupsTyped (insertGroup gs k r) := by
  induction gs with
  | nil =>
    intro g hg x hx
    simp only [insertGroup, List.mem_singleton] at hg
    subst hg
    simp only [List.mem_singleton] at hx
    subst hx
    exact hr
  | cons g0 t ih =>
    obtain ⟨k0, rs⟩ := g0
    by_cases h : k0 = k
    · subst h
      intro g hg x hx
      have hins : insertGroup ((k0, rs) :: t) k0 r = (k0, rs ++ [r]) :: t := by
        simp [insertGroup]
      rw [hins] at hg
      rcases List.mem_cons.mp hg with rfl | hgt
      · rcases List.mem_append.mp hx with hx' | hx'
        · exact hgs (k0, rs) (List.mem_cons_self _ _) x hx'
        · rw [List.mem_singleton] at hx'
          subst hx'
          exact hr
      · exact hgs g (List.mem_cons_of_mem _ hgt) x hx
    · intro g hg x hx
      have hins : insertGroup ((k0, rs) :: t) k r = (k0, rs) :: insertGroup t k r := by
        simp [insertGroup, h]
      rw [hins] at hg
      rcases List.mem_cons.mp hg with rfl | hgt
      · exact hgs (k0, rs) (List.mem_cons_self _ _) x hx
      · exact ih (fun g' hg' x' hx' => hgs g' (List.mem_cons_of_mem _ hg') x' hx') g hgt x hx

theorem groupByType_typed_aux (files : List DataRec) :
    ∀ gs, GroupsTyped gs →
      GroupsTyped
        (files.foldl (fun gs f => insertGroup gs (get_document_type f.content) f) gs) := by
  induction files with
  | nil => intro gs h; exact h
  | cons f fs ih =>
    intro gs h
    simp only [List.foldl_cons]
    exact ih _ (insertGroup_typed h rfl)

theorem groupByType_typed (files : List DataRec) : GroupsTyped (groupByType files) :=
  groupByType_typed_aux files [] (by intro g hg; simp at hg)

theorem mem_groupByType (files : List DataRec) (r : DataRec) (hr : r ∈ files) :
    ∃ g ∈ groupByType files, g.1 = get_document_type r.content ∧ r ∈ g.2 := by
  have hmem : r ∈ groupsJoin (groupByType files) := (groupByType_perm files).mem_iff.mpr hr
  rw [groupsJoin, List.mem_flatten] at hmem
  obtain ⟨l, hl, hrl⟩ := hmem
  rw [List.mem_map] at hl
  obtain ⟨g, hg, rfl⟩ := hl
  exact ⟨g, hg, (groupByType_typed files g hg r hrl).symm, hrl⟩

/-! ## Claim theorems -/

/-- C1 counterexample: the claim quantifies over every ratio triple whose sum is
within 0.01 of 1.0, which admits negative ratios.  For the triple
(-0.5, 0.5, 1.0) — sum exactly 1.0, so the ratio check passes — over five
distinct single-type records, the Python negative-slice semantics put the
record with id "2" into both the train and the test output, so the outputs are
not pairwise disjoint and the record is duplicated. -/
theorem splitAll_negative_ratio_duplicates :
    ratioSumBad ⟨-1, 2⟩ ⟨1, 2⟩ ⟨1, 1⟩ = false ∧
    sampleFiles 5 ≠ [] ∧
    (List.map DataRec.document_id (sampleFiles 5)).Nodup ∧
    sampleRec 2 ∈ (splitAll 42 ⟨-1, 2⟩ ⟨1, 2⟩ (sampleFiles 5)).1 ∧
    sampleRec 2 ∈ (splitAll 42 ⟨-1, 2⟩ ⟨1, 2⟩ (sampleFiles 5)).2.2 := by
  decide

/-- C1 (amended: the train and validation ratios must additionally be
nonnegative — the counterexample above shows the claim fails for a negative
ratio).  For every seed, every ratio triple with `r_train, r_val ≥ 0` whose sum
passes the 0.01 check, and every non-empty record list, the concatenation of
the three outputs of the stratified splitter is a permutation of the input (no
record lost, none duplicated), and whenever the document ids of the input are
pairwise distinct the three outputs are pairwise disjoint. -/
theorem splitAll_partitions (seed : Nat) (r1 r2 r3 : Ratio) (files : List DataRec)
    (h1 : 0 ≤ r1.num) (h2 : 0 ≤ r2.num)
    (hsum : ratioSumBad r1 r2 r3 = false) (hne : files ≠ []) :
    List.Perm
      ((splitAll seed r1 r2 files).1 ++
        ((splitAll seed r1 r2 files).2.1 ++ (splitAll seed r1 r2 files).2.2)) files ∧
    ((files.map DataRec.document_id).Nodup →
      (splitAll seed r1 r2 files).1.Disjoint (splitAll seed r1 r2 files).2.1 ∧
      (splitAll seed r1 r2 files).1.Disjoint (splitAll seed r1 r2 files).2.2 ∧
      (splitAll seed r1 r2 files).2.1.Disjoint (splitAll seed r1 r2 files).2.2) := by
  have hperm := splitAll_perm seed r1 r2 files h1 h2
  refine ⟨hperm, fun hid => ?_⟩
  have hnodup : files.Nodup := List.Nodup.of_map _ hid
  have h3 := (hperm.nodup_iff).mpr hnodup
  rw [List.nodup_append] at h3
  obtain ⟨_, h4, h5⟩ := h3
  rw [List.nodup_append] at h4
  rw [List.disjoint_append_right] at h5
  exact ⟨h5.1, h5.2, h4.2.2⟩

/-- Witness for `splitAll_partitions`: the ratio triple (0.7, 0.15, 0.15) over
three records satisfies every hypothesis. -/
theorem splitAll_partitions_witness :
    (0 ≤ (Ratio.mk 7 10).num ∧ 0 ≤ (Ratio.mk 3 20).num ∧
      ratioSumBad ⟨7, 10⟩ ⟨3, 20⟩ ⟨3, 20⟩ = false ∧ sampleFiles 3 ≠ []) ∧
    (List.Perm
      ((splitAll 42 ⟨7, 10⟩ ⟨3, 20⟩ (sampleFiles 3)).1 ++
        ((splitAll 42 ⟨7, 10⟩ ⟨3, 20⟩ (sampleFiles 3)).2.1 ++
          (splitAll 42 ⟨7, 10⟩ ⟨3, 20⟩ (sampleFiles 3)).2.2)) (sampleFiles 3) ∧
    (((sampleFiles 3).map DataRec.document_id).Nodup →
      (splitAll 42 ⟨7, 10⟩ ⟨3, 20⟩ (sampleFiles 3)).1.Disjoint
        (splitAll 42 ⟨7, 10⟩ ⟨3, 20⟩ (sampleFiles 3)).2.1 ∧
      (splitAll 42 ⟨7, 10⟩ ⟨3, 20⟩ (sampleFiles 3)).1.Disjoint
        (splitAll 42 ⟨7, 10⟩ ⟨3, 20⟩ (sampleFiles 3)).2.2 ∧
      (splitAll 42 ⟨7, 10⟩ ⟨3, 20⟩ (sampleFiles 3)).2.1.Disjoint
        (splitAll 42 ⟨7, 10⟩ ⟨3, 20⟩ (sampleFiles 3)).2.2)) :=
  ⟨⟨by decide, by decide, by decide, by decide⟩,
    splitAll_partitions 42 ⟨7, 10⟩ ⟨3, 20⟩ ⟨3, 20⟩ (sampleFiles 3)
      (by decide) (by decide) (by decide) (by decide)⟩

/-- C3: with the same seed, the same ratios and the same record-discovery order,
two runs of the splitter produce identical train/validation/test lists (the
embedded split is a pure function of exactly these inputs; the generator is
seeded once from the seed and threaded deterministically through the groups). -/
theorem splitAll_deterministic (s1 s2 : Nat) (r1 r1' r2 r2' : Ratio)
    (fs1 fs2 : List DataRec) (hs : s1 = s2) (h1 : r1 = r1') (h2 : r2 = r2')
    (hf : fs1 = fs2) :
    splitAll s1 r1 r2 fs1 = splitAll s2 r1' r2' fs2 := by
  subst hs; subst h1; subst h2; subst hf; rfl

/-- Witness for `splitAll_deterministic` at a concrete seed, ratio pair and
record list. -/
theorem splitAll_deterministic_witness :
    splitAll 42 ⟨7, 10⟩ ⟨3, 20⟩ (sampleFiles 4) =
      splitAll 42 ⟨7, 10⟩ ⟨3, 20⟩ (sampleFiles 4) :=
  splitAll_deterministic 42 42 ⟨7, 10⟩ ⟨7, 10⟩ ⟨3, 20⟩ ⟨3, 20⟩
    (sampleFiles 4) (sampleFiles 4) rfl rfl rfl rfl

/-- C2 counterexample: the claim quantifies over every ratio triple whose sum
is within 0.01 of 1.0, which admits triples with `r_train + r_val > 1`.  The
triple (1.0, 0.5, -0.4921875) has dyadic components, so all of the Python
float arithmetic at this input is exact and the real program reproduces this
trace: the ratio sum is exactly 1.0078125 (0.0078125 from 1.0, clearly below
the 0.01 threshold, so the check passes), `int(2*1.0) = 2` and
`int(2*0.5) = 1` exactly — yet over two single-type records the validation
slice `files[2:3]` is empty, although `floor(2 * 0.5) = 1`. -/
theorem splitAll_dyadic_val_shortfall :
    ratioSumBad ⟨1, 1⟩ ⟨1, 2⟩ ⟨-63, 128⟩ = false ∧
    (splitAll 42 ⟨1, 1⟩ ⟨1, 2⟩ (sampleFiles 2)).2.1.length = 0 ∧
    (pyIntMul (sampleFiles 2).length ⟨1, 2⟩).toNat = 1 := by
  decide

/-- C2 (amended: (i) the computed cut sizes must be nonnegative and sum to at
most `n` — the dyadic counterexample above, with `r_train + r_val = 1.5`,
passes the ratio check yet shorts the validation set; (ii) the per-partition
counts are those of the cut sizes the program actually computes by truncating
its floating-point products, not of the exact mathematical floors — e.g.
`int(100*0.29)` is 28 in the source while `floor(100 * 0.29) = 29` exactly —
so the identification with the floors holds under exact arithmetic only and is
asserted as a separate, explicitly exact-arithmetic part).
For a non-empty single-type record set of size `n`:
(A) whatever cut sizes `a = n_train` and `b = n_val` the program computes, if
`0 ≤ a`, `0 ≤ b` and `a + b ≤ n` then the three slices of lines 123–125 hold
exactly `a`, `b` and `n - a - b` records — the test slice is always the
remainder, never an independently computed count;
(B) the splitter's three outputs are exactly those slices of the shuffled
group, cut at the embedded cut sizes;
(C) under exact arithmetic the embedded cut sizes are `floor(n * r_train)` and
`floor(n * r_val)`. -/
theorem splitAll_single_type_counts (seed : Nat) (r1 r2 r3 : Ratio) (k : Json)
    (f : DataRec) (fs : List DataRec)
    (hall : ∀ x ∈ f :: fs, get_document_type x.content = k)
    (h1 : 0 ≤ r1.num) (h2 : 0 ≤ r2.num)
    (hvalid : ratioSumBad r1 r2 r3 = false) :
    (∀ (s : List DataRec) (a b : Int), 0 ≤ a → 0 ≤ b →
      a.toNat + b.toNat ≤ s.length →
      (pySliceTo s a).length = a.toNat ∧
      (pySlice s a (a + b)).length = b.toNat ∧
      (pySliceFrom s (a + b)).length = s.length - a.toNat - b.toNat) ∧
    (splitAll seed r1 r2 (f :: fs) =
      (pySliceTo (pyShuffle seed (f :: fs)).1 (pyIntMul (f :: fs).length r1),
       pySlice (pyShuffle seed (f :: fs)).1 (pyIntMul (f :: fs).length r1)
         (pyIntMul (f :: fs).length r1 + pyIntMul (f :: fs).length r2),
       pySliceFrom (pyShuffle seed (f :: fs)).1
         (pyIntMul (f :: fs).length r1 + pyIntMul (f :: fs).length r2))) ∧
    (pyIntMul (f :: fs).length r1 = ⌊((f :: fs).length : ℚ) * r1.toRat⌋ ∧
     pyIntMul (f :: fs).length r2 = ⌊((f :: fs).length : ℚ) * r2.toRat⌋) := by
  refine ⟨?_, ?_, pyIntMul_eq_floor _ _ h1, pyIntMul_eq_floor _ _ h2⟩
  · intro s a b ha hb hab
    rw [pySliceTo_nonneg _ _ ha, pySlice_nonneg _ _ _ ha (add_nonneg ha hb),
      pySliceFrom_nonneg _ _ (add_nonneg ha hb), Int.toNat_add ha hb,
      Nat.add_sub_cancel_left, List.length_take, List.length_take,
      List.length_drop, List.length_drop]
    exact ⟨min_eq_left (by omega), min_eq_left (by omega), by omega⟩
  · rw [splitAll, groupByType_single k f fs hall]
    simp only [splitGroups, splitGroup, List.append_nil]
    rw [pyShuffle_length]

/-- Witness for `splitAll_single_type_counts`: three invoice records with
ratios (0.7, 0.15, 0.15). -/
theorem splitAll_single_type_counts_witness :
    ((∀ x ∈ sampleRec 0 :: (sampleFiles 3).tail,
        get_document_type x.content = Json.str "invoice") ∧
      0 ≤ (Ratio.mk 7 10).num ∧ 0 ≤ (Ratio.mk 3 20).num ∧
      ratioSumBad ⟨7, 10⟩ ⟨3, 20⟩ ⟨3, 20⟩ = false) ∧
    ((∀ (s : List DataRec) (a b : Int), 0 ≤ a → 0 ≤ b →
        a.toNat + b.toNat ≤ s.length →
        (pySliceTo s a).length = a.toNat ∧
        (pySlice s a (a + b)).length = b.toNat ∧
        (pySliceFrom s (a + b)).length = s.length - a.toNat - b.toNat) ∧
      (splitAll 42 ⟨7, 10⟩ ⟨3, 20⟩ (sampleRec 0 :: (sampleFiles 3).tail) =
        (pySliceTo (pyShuffle 42 (sampleRec 0 :: (sampleFiles 3).tail)).1
           (pyIntMul (sampleRec 0 :: (sampleFiles 3).tail).length ⟨7, 10⟩),
         pySlice (pyShuffle 42 (sampleRec 0 :: (sampleFiles 3).tail)).1
           (pyIntMul (sampleRec 0 :: (sampleFiles 3).tail).length ⟨7, 10⟩)
           (pyIntMul (sampleRec 0 :: (sampleFiles 3).tail).length ⟨7, 10⟩ +
             pyIntMul (sampleRec 0 :: (sampleFiles 3).tail).length ⟨3, 20⟩),
         pySliceFrom (pyShuffle 42 (sampleRec 0 :: (sampleFiles 3).tail)).1
           (pyIntMul (sampleRec 0 :: (sampleFiles 3).tail).length ⟨7, 10⟩ +
             pyIntMul (sampleRec 0 :: (sampleFiles 3).tail).length ⟨3, 20⟩))) ∧
      (pyIntMul (sampleRec 0 :: (sampleFiles 3).tail).length ⟨7, 10⟩ =
          ⌊((sampleRec 0 :: (sampleFiles 3).tail).length : ℚ) *
            (Ratio.mk 7 10).toRat⌋ ∧
        pyIntMul (sampleRec 0 :: (sampleFiles 3).tail).length ⟨3, 20⟩ =
          ⌊((sampleRec 0 :: (sampleFiles 3).tail).length : ℚ) *
            (Ratio.mk 3 20).toRat⌋)) :=
  ⟨⟨by decide, by decide, by decide, by decide⟩,
    splitAll_single_type_counts 42 ⟨7, 10⟩ ⟨3, 20⟩ ⟨3, 20⟩ (Json.str "invoice")
      (sampleRec 0) (sampleFiles 3).tail (by decide) (by decide) (by decide)
      (by decide)⟩

/-- C4 counterexample: on the spec record
`{"document_id":"x","filename":"x.pdf","document_type":"invoice","entities":{"document_type":"invoice"}}`
the validator does not report a single issue. -/
theorem validate_annotation_not_one_issue :
    ( validateAnnotation specEmptyInvoiceRec).2.length ≠ 1 ∧
    ( validateAnnotation specEmptyInvoiceRec).2 ≠ [emptyEntitiesIssue] := by
  decide

/-- C4 (amended: the validator reports exactly two issues, not one): on the
spec record the result is invalid with precisely the missing
`invoice_number` identifier issue followed by the empty-annotation issue —
the type-specific rule fires because `entities` lacks `invoice_number`, and
the empty-annotation rule fires because `entities` has at most one field. -/
theorem validate_annotation_two_issues :
    validateAnnotation specEmptyInvoiceRec =
      (false, [invoiceMissingIssue, emptyEntitiesIssue]) := by
  decide

/-- C5: for every ratio triple failing the 0.01 sum check, every seed and
every record list, the run of `split_data.py main` takes the
configuration-error branch before any partitioning or side effect, and the
process terminates with exit status 1.  (Mechanism note: the branch's
`sys.exit(1)` on line 69 in fact raises `NameError`, because `sys` is never
imported in this module — see `splitDataImports`; CPython then terminates with
status 1, the claimed observable, via the unhandled exception rather than via
a clean `SystemExit`.) -/
theorem split_data_bad_ratio_fails (r1 r2 r3 : Ratio) (seed : Nat)
    (files : List DataRec) (h : ratioSumBad r1 r2 r3 = true) :
    split_data_main r1 r2 r3 seed files = RunOutcome.configErrorCrash ∧
    processExitCode (split_data_main r1 r2 r3 seed files) = 1 := by
  simp [split_data_main, h, processExitCode]

/-- Witness for `split_data_bad_ratio_fails`: ratios (0.5, 0.2, 0.2) — sum 0.9,
far from the 0.01 boundary, so the real float check fires at this input as
well. -/
theorem split_data_bad_ratio_fails_witness :
    ratioSumBad ⟨1, 2⟩ ⟨1, 5⟩ ⟨1, 5⟩ = true ∧
    (split_data_main ⟨1, 2⟩ ⟨1, 5⟩ ⟨1, 5⟩ 42 (sampleFiles 3) =
        RunOutcome.configErrorCrash ∧
      processExitCode (split_data_main ⟨1, 2⟩ ⟨1, 5⟩ ⟨1, 5⟩ 42 (sampleFiles 3)) = 1) :=
  ⟨by decide,
    split_data_bad_ratio_fails ⟨1, 2⟩ ⟨1, 5⟩ ⟨1, 5⟩ 42 (sampleFiles 3) (by decide)⟩

/-- C6 counterexample: with valid ratios and an empty record list, the run is
not fatal: `main` prints a warning and returns normally (the `return` on
line 76), so the process exit status is 0, not a failure. -/
theorem split_data_empty_input_exit_zero :
    split_data_main ⟨7, 10⟩ ⟨3, 20⟩ ⟨3, 20⟩ 42 [] = RunOutcome.emptyInputReturn ∧
    processExitCode (split_data_main ⟨7, 10⟩ ⟨3, 20⟩ ⟨3, 20⟩ 42 []) = 0 := by
  decide

/-- C6 (amended: the zero-record run stops early and produces no partition, but
it is not fatal — it returns normally with exit status 0 after printing a
warning).  Holds for every seed and every ratio triple passing the sum check. -/
theorem split_data_empty_input_no_partition (r1 r2 r3 : Ratio) (seed : Nat)
    (h : ratioSumBad r1 r2 r3 = false) :
    split_data_main r1 r2 r3 seed [] = RunOutcome.emptyInputReturn ∧
    processExitCode (split_data_main r1 r2 r3 seed []) = 0 := by
  simp [split_data_main, h, processExitCode]

/-- Witness for `split_data_empty_input_no_partition`. -/
theorem split_data_empty_input_no_partition_witness :
    ratioSumBad ⟨1, 2⟩ ⟨1, 4⟩ ⟨1, 4⟩ = false ∧
    (split_data_main ⟨1, 2⟩ ⟨1, 4⟩ ⟨1, 4⟩ 7 [] = RunOutcome.emptyInputReturn ∧
      processExitCode (split_data_main ⟨1, 2⟩ ⟨1, 4⟩ ⟨1, 4⟩ 7 []) = 0) :=
  ⟨by decide, split_data_empty_input_no_partition ⟨1, 2⟩ ⟨1, 4⟩ ⟨1, 4⟩ 7 (by decide)⟩

/-- C7 counterexample: on a record whose `entities` holds a `supplier` field and
a `tax` field, the extractor reports `has_seller_buyer = false` and
`has_amounts = false`, although the claim's field lists (which include
`supplier` and `tax`) demand `true` for both — the source consults neither
`supplier` nor `tax`. -/
theorem get_annotation_stats_misses_supplier_tax :
    get_annotation_stats (some (Json.obj supplierTaxRec)) =
      some { document_type := Json.str "invoice", field_count := 3, items_count := 0,
             has_seller_buyer := false, has_amounts := false } ∧
    specCompanyRole supplierTaxEntities = true ∧
    specAmountField supplierTaxEntities = true := by
  decide

/-- C7 (amended: the company-role boolean consults only
seller/buyer/shipper/consignee — not `supplier` — and the amount boolean only
total/subtotal/total_weight — not `tax`).  For every record whose `entities`
is an object, whatever statistics record the extractor returns has the
document type (defaulting to "unknown"), the `entities` field count, the two
booleans as just described, an item count of zero when neither sequence key is
present; and a malformed (unparsable) record yields the empty result instead
of a failure. -/
theorem get_annotation_stats_components (data e : JsonObj) (st : AnnotationStats)
    (he : data.find "entities" = some (Json.obj e))
    (hst : get_annotation_stats (some (Json.obj data)) = some st) :
    st.document_type = data.getD "document_type" (Json.str "unknown") ∧
    st.field_count = e.length ∧
    (st.has_seller_buyer = true ↔
      (e.hasKey "seller" = true ∨ e.hasKey "buyer" = true ∨
        e.hasKey "shipper" = true ∨ e.hasKey "consignee" = true)) ∧
    (st.has_amounts = true ↔
      (e.hasKey "total" = true ∨ e.hasKey "subtotal" = true ∨
        e.hasKey "total_weight" = true)) ∧
    (e.hasKey "line_items" = false → e.hasKey "cargo_items" = false →
      st.items_count = 0) ∧
    get_annotation_stats none = none := by
  simp only [get_annotation_stats, he] at hst
  cases hic : itemsCountPy e with
  | none => rw [hic] at hst; exact absurd hst (by simp)
  | some ic =>
    rw [hic] at hst
    have hst' := Option.some.inj hst
    subst hst'
    refine ⟨rfl, rfl, ?_, ?_, ?_, rfl⟩
    · simp [Bool.or_eq_true, or_assoc]
    · simp [Bool.or_eq_true, or_assoc]
    · intro hl hc
      simp only [itemsCountPy, hl, hc, if_neg, Bool.false_eq_true, if_false] at hic
      exact (Option.some.inj hic).symm

/-- Witness for `get_annotation_stats_components` on a record with a `seller`
field. -/
theorem get_annotation_stats_components_witness :
    (sellerRec.find "entities" = some (Json.obj sellerEntities) ∧
      get_annotation_stats (some (Json.obj sellerRec)) =
        some { document_type := Json.str "invoice", field_count := 2, items_count := 0,
               has_seller_buyer := true, has_amounts := false }) ∧
    (({ document_type := Json.str "invoice", field_count := 2, items_count := 0,
        has_seller_buyer := true, has_amounts := false } :
          AnnotationStats).document_type =
        sellerRec.getD "document_type" (Json.str "unknown") ∧
      ({ document_type := Json.str "invoice", field_count := 2, items_count := 0,
         has_seller_buyer := true, has_amounts := false } :
           AnnotationStats).field_count = sellerEntities.length ∧
      (({ document_type := Json.str "invoice", field_count := 2, items_count := 0,
          has_seller_buyer := true, has_amounts := false } :
            AnnotationStats).has_seller_buyer = true ↔
        (sellerEntities.hasKey "seller" = true ∨ sellerEntities.hasKey "buyer" = true ∨
          sellerEntities.hasKey "shipper" = true ∨
          sellerEntities.hasKey "consignee" = true)) ∧
      (({ document_type := Json.str "invoice", field_count := 2, items_count := 0,
          has_seller_buyer := true, has_amounts := false } :
            AnnotationStats).has_amounts = true ↔
        (sellerEntities.hasKey "total" = true ∨ sellerEntities.hasKey "subtotal" = true ∨
          sellerEntities.hasKey "total_weight" = true)) ∧
      (sellerEntities.hasKey "line_items" = false →
        sellerEntities.hasKey "cargo_items" = false →
        ({ document_type := Json.str "invoice", field_count := 2, items_count := 0,
           has_seller_buyer := true, has_amounts := false } :
             AnnotationStats).items_count = 0) ∧
      get_annotation_stats none = none) :=
  ⟨⟨by decide, by decide⟩,
    get_annotation_stats_components sellerRec sellerEntities
      { document_type := Json.str "invoice", field_count := 2, items_count := 0,
        has_seller_buyer := true, has_amounts := false } (by decide) (by decide)⟩

/-- C8: the quality reporter's balance verdict holds exactly when the largest
per-split record count is at most twice the smallest; in particular the
counts (10, 3) are marked imbalanced and (10, 6) balanced. -/
theorem splitsBalanced_iff :
    (∀ (c : Nat) (cs : List Nat),
        splitsBalanced (c :: cs) = true ↔ cs.foldl Nat.max c ≤ 2 * cs.foldl Nat.min c) ∧
    splitsBalanced [10, 3] = false ∧ splitsBalanced [10, 6] = true := by
  refine ⟨?_, by decide, by decide⟩
  intro c cs
  simp only [splitsBalanced]
  split
  · next h => simp only [Bool.false_eq_true, false_iff]; omega
  · next h => simp only [true_iff]; omega

/-- C9: a record whose file cannot be parsed, or whose parsed object has no
top-level `document_type`, is neither an error nor dropped: its type is the
synthetic "unknown", it lands in the group keyed "unknown", and (for
nonnegative train/val ratios) it appears exactly once across the three
outputs of the splitter, like any other record. -/
theorem unknown_type_record_assigned (seed : Nat) (r1 r2 : Ratio)
    (files : List DataRec) (r : DataRec)
    (hcontent : r.content = none ∨
      ∃ data, r.content = some (Json.obj data) ∧ data.find "document_type" = none)
    (hcount : files.count r = 1)
    (h1 : 0 ≤ r1.num) (h2 : 0 ≤ r2.num) :
    get_document_type r.content = Json.str "unknown" ∧
    (∃ g ∈ groupByType files, g.1 = Json.str "unknown" ∧ r ∈ g.2) ∧
    (splitAll seed r1 r2 files).1.count r + (splitAll seed r1 r2 files).2.1.count r +
      (splitAll seed r1 r2 files).2.2.count r = 1 := by
  have hunk : get_document_type r.content = Json.str "unknown" := by
    rcases hcontent with h | ⟨data, hc, hd⟩
    · rw [h]; rfl
    · rw [hc]
      simp [get_document_type, JsonObj.getD, hd]
  have hmem : r ∈ files := List.count_pos_iff.mp (by omega)
  obtain ⟨g, hg, hgk, hgr⟩ := mem_groupByType files r hmem
  refine ⟨hunk, ⟨g, hg, by rw [hgk, hunk], hgr⟩, ?_⟩
  have hperm := (splitAll_perm seed r1 r2 files h1 h2).count_eq r
  simp only [List.count_append] at hperm
  omega

/-- Witness for `unknown_type_record_assigned`: an unreadable record among two
invoice records. -/
theorem unknown_type_record_assigned_witness :
    (unreadableRec.content = none ∧
      ([unreadableRec, sampleRec 0, sampleRec 1].count unreadableRec = 1)) ∧
    (get_document_type unreadableRec.content = Json.str "unknown" ∧
      (∃ g ∈ groupByType [unreadableRec, sampleRec 0, sampleRec 1],
        g.1 = Json.str "unknown" ∧ unreadableRec ∈ g.2) ∧
      (splitAll 42 ⟨7, 10⟩ ⟨3, 20⟩ [unreadableRec, sampleRec 0, sampleRec 1]).1.count
          unreadableRec +
        (splitAll 42 ⟨7, 10⟩ ⟨3, 20⟩ [unreadableRec, sampleRec 0, sampleRec 1]).2.1.count
          unreadableRec +
        (splitAll 42 ⟨7, 10⟩ ⟨3, 20⟩ [unreadableRec, sampleRec 0, sampleRec 1]).2.2.count
          unreadableRec = 1) :=
  ⟨⟨rfl, by decide⟩,
    unknown_type_record_assigned 42 ⟨7, 10⟩ ⟨3, 20⟩ [unreadableRec, sampleRec 0, sampleRec 1]
      unreadableRec (Or.inl rfl) (by decide) (by decide) (by decide)⟩

/-- C10: when `entities` carries both a `line_items` array and a `cargo_items`
array, the extractor's item count is the length of `line_items` alone — the
`elif` branch for `cargo_items` is never reached. -/
theorem get_annotation_stats_line_items_precedence (data e : JsonObj)
    (xs ys : JsonList)
    (he : data.find "entities" = some (Json.obj e))
    (hl : e.find "line_items" = some (Json.arr xs))
    (hc : e.find "cargo_items" = some (Json.arr ys)) :
    get_annotation_stats (some (Json.obj data)) =
      some { document_type := data.getD "document_type" (Json.str "unknown"),
             field_count := e.length,
             items_count := xs.length,
             has_seller_buyer := e.hasKey "seller" || e.hasKey "buyer" ||
                                 e.hasKey "shipper" || e.hasKey "consignee",
             has_amounts := e.hasKey "total" || e.hasKey "subtotal" ||
                            e.hasKey "total_weight" } := by
  have hik : itemsCountPy e = some xs.length := by
    simp [itemsCountPy, JsonObj.hasKey, hl, JsonObj.getD, jsonLen]
  simp [get_annotation_stats, he, hik]

/-- Witness for `get_annotation_stats_line_items_precedence`: two line items
and three cargo items give an item count of 2. -/
theorem get_annotation_stats_line_items_precedence_witness :
    (bothItemsRec.find "entities" = some (Json.obj bothItemsEntities) ∧
      bothItemsEntities.find "line_items" =
        some (Json.arr (.cons (Json.num 1) (.cons (Json.num 2) .nil))) ∧
      bothItemsEntities.find "cargo_items" =
        some (Json.arr (.cons (Json.num 3) (.cons (Json.num 4) (.cons (Json.num 5) .nil))))) ∧
    get_annotation_stats (some (Json.obj bothItemsRec)) =
      some { document_type := bothItemsRec.getD "document_type" (Json.str "unknown"),
             field_count := bothItemsEntities.length,
             items_count :=
               (JsonList.cons (Json.num 1) (.cons (Json.num 2) .nil)).length,
             has_seller_buyer := bothItemsEntities.hasKey "seller" ||
               bothItemsEntities.hasKey "buyer" || bothItemsEntities.hasKey "shipper" ||
               bothItemsEntities.hasKey "consignee",
             has_amounts := bothItemsEntities.hasKey "total" ||
               bothItemsEntities.hasKey "subtotal" ||
               bothItemsEntities.hasKey "total_weight" } :=
  ⟨⟨by decide, by decide, by decide⟩,
    get_annotation_stats_line_items_precedence bothItemsRec bothItemsEntities
      (.cons (Json.num 1) (.cons (Json.num 2) .nil))
      (.cons (Json.num 3) (.cons (Json.num 4) (.cons (Json.num 5) .nil)))
      (by decide) (by decide) (by decide)⟩

/-- The integer ratio-sum check embeds the source's exact condition: for
positive denominators, `ratioSumBad` holds precisely when the rational value
of the ratio sum differs from 1 by more than 0.01 (line 67 of
`split_data.py`). -/
theorem ratioSumBad_iff_toRat (a b c : Ratio) (ha : 0 < a.den) (hb : 0 < b.den)
    (hc : 0 < c.den) :
    ratioSumBad a b c = true ↔ 1 / 100 < |a.toRat + b.toRat + c.toRat - 1| := by
  have haq : ((a.den : ℚ)) ≠ 0 := by exact_mod_cast ha.ne'
  have hbq : ((b.den : ℚ)) ≠ 0 := by exact_mod_cast hb.ne'
  have hcq : ((c.den : ℚ)) ≠ 0 := by exact_mod_cast hc.ne'
  have hDq : (0 : ℚ) < ((a.den : ℚ) * (b.den : ℚ) * (c.den : ℚ)) := by positivity
  simp only [ratioSumBad, gt_iff_lt, decide_eq_true_eq]
  have key : a.toRat + b.toRat + c.toRat - 1 =
      (((a.num * (b.den : Int) * (c.den : Int) +
         b.num * (a.den : Int) * (c.den : Int) +
         c.num * (a.den : Int) * (b.den : Int) : Int) : ℚ) -
        (((a.den * b.den * c.den : Nat) : Int) : ℚ)) /
        ((a.den : ℚ) * (b.den : ℚ) * (c.den : ℚ)) := by
    field_simp [Ratio.toRat]
    push_cast
    ring
  rw [key, abs_div, abs_of_pos hDq, lt_div_iff₀ hDq]
  have hq : ((a.den : ℚ) * (b.den : ℚ) * (c.den : ℚ)) =
      (((a.den * b.den * c.den : Nat) : Int) : ℚ) := by push_cast; ring
  rw [hq]
  constructor
  · intro h
    have h2 : ((((a.den * b.den * c.den : Nat) : Int) : ℚ)) <
        (100 : ℚ) * |((a.num * (b.den : Int) * (c.den : Int) +
          b.num * (a.den : Int) * (c.den : Int) +
          c.num * (a.den : Int) * (b.den : Int) : Int) : ℚ) -
          (((a.den * b.den * c.den : Nat) : Int) : ℚ)| := by
      exact_mod_cast h
    linarith
  · intro h
    have h2 : ((((a.den * b.den * c.den : Nat) : Int) : ℚ)) <
        (100 : ℚ) * |((a.num * (b.den : Int) * (c.den : Int) +
          b.num * (a.den : Int) * (c.den : Int) +
          c.num * (a.den : Int) * (b.den : Int) : Int) : ℚ) -
          (((a.den * b.den * c.den : Nat) : Int) : ℚ)| := by
      linarith
    exact_mod_cast h2
